import Mathlib

/-!
Verification of the Token Discovery & Risk Aggregation Engine of a
Solana meme-token scanner bot (src/bot.py) against its specification.

Shallow embedding conventions:
* Python floats used as market metrics become `ℚ`; machine-epoch
  timestamps become `Int` (milliseconds or seconds, as in the source);
  wall-clock instants become `ℚ` (seconds).
* `None`-able Python values become `Option _`.
* Python's truthiness-based `x or y` on numbers, strings and ints is
  embedded by the `pyOr*` helpers below (a value is falsy when it is
  `None`, `0` or the empty string).
* HTTP calls are modelled by passing the (already parsed) response as
  an explicit `Option` argument: `none` models any soft failure
  (non-200 status, `success == false`, parse error, timeout).
-/

namespace CrocScanner

/-- Risk reason codes, in the source's rule order (`calc_risk_score`,
src/bot.py:892-934).  The top-10 concentration reason carries the raw
percentage the source interpolates into its message. -/
inductive Reason where
  | lowLiquidity
  | lowVolume
  | lowLpLock
  | newToken
  | mintAuthorityActive
  | freezeAuthorityActive
  | top10Concentration (pct : ℚ)
deriving DecidableEq, Repr

/-- Python `x is not None and x < b` for an optional numeric metric. -/
def known_lt (x : Option ℚ) (b : ℚ) : Bool :=
  match x with
  | some v => v < b
  | none => false

/-- Python `x is not None and x > b` for an optional numeric metric. -/
def known_gt (x : Option ℚ) (b : ℚ) : Bool :=
  match x with
  | some v => b < v
  | none => false

/-- Embedding of `calc_risk_score` (src/bot.py:892-934): start at 100,
apply the seven `if cond: score -= p; reasons.append(r)` penalties in
source order, clamp to [0, 100].  The Python `score` and `reasons`
variables become the two let-chains `s1..s7` and `r1..r7`. -/
def calc_risk_score (liquidity volume lp_lock_pct : Option ℚ)
    (token_age_hours : ℚ) (mint_auth_active freeze_auth_active : Bool)
    (top10_pct : Option ℚ) : Int × List Reason :=
  let s1 : Int := if known_lt liquidity 10000 then 100 - 15 else 100
  let r1 : List Reason := if known_lt liquidity 10000 then [.lowLiquidity] else []
  let s2 := if known_lt volume 10000 then s1 - 10 else s1
  let r2 := if known_lt volume 10000 then r1 ++ [.lowVolume] else r1
  let s3 := if known_lt lp_lock_pct 20 then s2 - 15 else s2
  let r3 := if known_lt lp_lock_pct 20 then r2 ++ [.lowLpLock] else r2
  let s4 := if token_age_hours < 6 then s3 - 20 else s3
  let r4 := if token_age_hours < 6 then r3 ++ [.newToken] else r3
  let s5 := if mint_auth_active then s4 - 15 else s4
  let r5 := if mint_auth_active then r4 ++ [.mintAuthorityActive] else r4
  let s6 := if freeze_auth_active then s5 - 15 else s5
  let r6 := if freeze_auth_active then r5 ++ [.freezeAuthorityActive] else r5
  let s7 := if known_gt top10_pct 50 then s6 - 10 else s6
  let r7 := if known_gt top10_pct 50 then
    r6 ++ [.top10Concentration (top10_pct.getD 0)] else r6
  (max 0 (min 100 s7), r7)

/-- Modelled from the spec: the §4.7 reference penalty table — each of
the seven rules contributes its (penalty, reason code) exactly when its
guard holds, listed in the fixed rule order. -/
def spec_penalty_list (liquidity volume lp_lock_pct : Option ℚ)
    (token_age_hours : ℚ) (mint_auth_active freeze_auth_active : Bool)
    (top10_pct : Option ℚ) : List (Int × Reason) :=
  (if known_lt liquidity 10000 then [((15 : Int), Reason.lowLiquidity)] else [])
  ++ (if known_lt volume 10000 then [((10 : Int), Reason.lowVolume)] else [])
  ++ (if known_lt lp_lock_pct 20 then [((15 : Int), Reason.lowLpLock)] else [])
  ++ (if token_age_hours < 6 then [((20 : Int), Reason.newToken)] else [])
  ++ (if mint_auth_active then [((15 : Int), Reason.mintAuthorityActive)] else [])
  ++ (if freeze_auth_active then [((15 : Int), Reason.freezeAuthorityActive)] else [])
  ++ (if known_gt top10_pct 50 then
        [((10 : Int), Reason.top10Concentration (top10_pct.getD 0))] else [])

/-- Modelled from the spec: the §4.7 reference scorer — 100 minus the
sum of the applicable penalties, clamped to [0, 100], with the reasons
in rule order. -/
def score_ref (liquidity volume lp_lock_pct : Option ℚ)
    (token_age_hours : ℚ) (mint_auth_active freeze_auth_active : Bool)
    (top10_pct : Option ℚ) : Int × List Reason :=
  let ps := spec_penalty_list liquidity volume lp_lock_pct token_age_hours
    mint_auth_active freeze_auth_active top10_pct
  (max 0 (min 100 (100 - (ps.map Prod.fst).sum)), ps.map Prod.snd)

set_option maxHeartbeats 2000000 in
theorem calc_eq_ref (l v lp : Option ℚ) (age : ℚ) (ma fa : Bool)
    (t : Option ℚ) :
    calc_risk_score l v lp age ma fa t = score_ref l v lp age ma fa t := by
  simp only [calc_risk_score, score_ref, spec_penalty_list]
  cases h1 : known_lt l 10000 <;> cases h2 : known_lt v 10000 <;>
    cases h3 : known_lt lp 20 <;>
    by_cases h4 : age < 6 <;>
    cases ma <;> cases fa <;> cases h7 : known_gt t 50 <;>
    simp [h4]

/-- C1: for every input tuple the risk scorer agrees with the §4.7
reference (start at 100, the seven penalties in fixed order, clamp to
[0, 100], reasons in rule order), and Scenario D's inputs yield score
40 with reasons [NEW_TOKEN, MINT_AUTHORITY_ACTIVE,
FREEZE_AUTHORITY_ACTIVE, TOP10_CONCENTRATION(80)]. -/
theorem calc_risk_score_matches_reference :
    (∀ (l v lp : Option ℚ) (age : ℚ) (ma fa : Bool) (t : Option ℚ),
      calc_risk_score l v lp age ma fa t = score_ref l v lp age ma fa t)
    ∧ calc_risk_score none none none 2 true true (some 80)
      = (40, [Reason.newToken, Reason.mintAuthorityActive,
              Reason.freezeAuthorityActive, Reason.top10Concentration 80]) := by
  refine ⟨calc_eq_ref, ?_⟩
  simp [calc_risk_score, known_lt, known_gt]
  norm_num

set_option maxHeartbeats 2000000 in
theorem mem_reasons_iff (x : Reason) (l v lp : Option ℚ) (age : ℚ)
    (ma fa : Bool) (t : Option ℚ) :
    x ∈ (calc_risk_score l v lp age ma fa t).2 ↔
      (x = .lowLiquidity ∧ known_lt l 10000 = true)
      ∨ (x = .lowVolume ∧ known_lt v 10000 = true)
      ∨ (x = .lowLpLock ∧ known_lt lp 20 = true)
      ∨ (x = .newToken ∧ age < 6)
      ∨ (x = .mintAuthorityActive ∧ ma = true)
      ∨ (x = .freezeAuthorityActive ∧ fa = true)
      ∨ (x = .top10Concentration (t.getD 0) ∧ known_gt t 50 = true) := by
  simp only [calc_risk_score]
  cases h1 : known_lt l 10000 <;> cases h2 : known_lt v 10000 <;>
    cases h3 : known_lt lp 20 <;> by_cases h4 : age < 6 <;>
    cases ma <;> cases fa <;> cases h7 : known_gt t 50 <;>
    simp [h4]

/-- C5: a None nullable metric never contributes its penalty: with
`liquidity = none` the reasons never contain LOW_LIQUIDITY, with
`volume = none` never LOW_VOLUME, with `lp_lock_pct = none` never
LOW_LP_LOCK, and with `top10_pct = none` never TOP10_CONCENTRATION. -/
theorem null_metric_never_penalized (l v lp : Option ℚ) (age : ℚ)
    (ma fa : Bool) (t : Option ℚ) :
    (l = none → Reason.lowLiquidity ∉ (calc_risk_score l v lp age ma fa t).2)
    ∧ (v = none → Reason.lowVolume ∉ (calc_risk_score l v lp age ma fa t).2)
    ∧ (lp = none → Reason.lowLpLock ∉ (calc_risk_score l v lp age ma fa t).2)
    ∧ (t = none → ∀ q : ℚ,
        Reason.top10Concentration q ∉ (calc_risk_score l v lp age ma fa t).2) := by
  refine ⟨?_, ?_, ?_, ?_⟩ <;> intro h <;> subst h <;>
    simp [mem_reasons_iff, known_lt, known_gt]

/-- Witness for C5 at concrete inputs. -/
theorem null_metric_never_penalized_witness :
    Reason.lowLiquidity
      ∉ (calc_risk_score none (some 5000) none 10 false false (some 80)).2 :=
  (null_metric_never_penalized none (some 5000) none 10 false false (some 80)).1 rfl

/-! ## Python truthiness helpers

`x or y` in Python returns `x` when `x` is truthy (not `None`, not `0`,
not the empty string) and `y` otherwise. -/

/-- Python `x or y` on optional numbers. -/
def pyOrQ (a b : Option ℚ) : Option ℚ :=
  match a with
  | some x => if x ≠ 0 then a else b
  | none => b

/-- Python `x or y` on optional integers (epoch timestamps). -/
def pyOrInt (a b : Option Int) : Option Int :=
  match a with
  | some x => if x ≠ 0 then a else b
  | none => b

/-- Python `x or y` on an optional string with a plain-string default. -/
def pyOrStr (a : Option String) (b : String) : String :=
  match a with
  | some x => if x ≠ "" then x else b
  | none => b

/-! ## Discovery data model -/

/-- The `baseToken` sub-dict of a discovered pair. -/
structure BaseToken where
  symbol : String
  name : String
  address : String
deriving DecidableEq, Repr

/-- The canonical pair dict built by `fetch_latest_sol_pairs`
(src/bot.py:645-653).  The nested `liquidity.usd` and `volume.h24`
dict entries are flattened into `liquidityUsd` and `volume24h`. -/
structure Pair where
  baseToken : BaseToken
  priceUsd : Option ℚ
  liquidityUsd : Option ℚ
  fdv : Option ℚ
  volume24h : Option ℚ
  pairCreatedAt : Option Int
deriving DecidableEq, Repr

instance : Inhabited Pair :=
  ⟨{ baseToken := ⟨"", "", ""⟩, priceUsd := none, liquidityUsd := none,
     fdv := none, volume24h := none, pairCreatedAt := none }⟩

/-- One raw market record from the upstream `/defi/v2/markets` payload,
restricted to the keys `fetch_latest_sol_pairs` reads. -/
structure MarketItem where
  symbol : Option String := none
  name : Option String := none
  address : Option String := none
  baseAddress : Option String := none
  price : Option ℚ := none
  liquidity : Option ℚ := none
  liquidityUsd : Option ℚ := none
  marketCap : Option ℚ := none
  fdv : Option ℚ := none
  v24hUSD : Option ℚ := none
  v24h : Option ℚ := none
  volume24h : Option ℚ := none
  createdAt : Option Int := none
  firstTradeAt : Option Int := none
deriving DecidableEq, Repr

/-- The pair dict built from one market record inside the
`for m in items[:50]` loop of `fetch_latest_sol_pairs`
(src/bot.py:638-653). -/
def build_pair (m : MarketItem) : Pair :=
  { baseToken :=
      { symbol := pyOrStr m.symbol ""
        name := pyOrStr m.name ""
        address := pyOrStr m.address (pyOrStr m.baseAddress "") }
    priceUsd := m.price
    liquidityUsd := pyOrQ m.liquidity m.liquidityUsd
    fdv := pyOrQ m.marketCap m.fdv
    volume24h := pyOrQ m.v24hUSD (pyOrQ m.v24h m.volume24h)
    pairCreatedAt := pyOrInt m.createdAt m.firstTradeAt }

/-! ## Result cache (`_scan_cache`, src/bot.py:186-187) -/

/-- `SCAN_CACHE_TTL = 15` (src/bot.py:186). -/
def SCAN_CACHE_TTL : ℚ := 15

/-- The single global `_scan_cache` slot: fetch timestamp plus the
cached pair list. -/
structure ScanCache where
  ts : ℚ
  pairs : List Pair
deriving DecidableEq, Repr

/-- The cache read guard of `fetch_latest_sol_pairs`
(src/bot.py:605-606): the cached list, truncated to `limit`, is
returned only while `ts + SCAN_CACHE_TTL > now` and the list is
non-empty. -/
def cache_get (c : ScanCache) (now : ℚ) (limit : Nat) : Option (List Pair) :=
  if c.ts + SCAN_CACHE_TTL > now ∧ c.pairs ≠ [] then
    some (c.pairs.take limit)
  else
    none

/-- The cache write of `fetch_latest_sol_pairs` (src/bot.py:671-673):
the slot is overwritten wholesale. -/
def cache_put (now : ℚ) (ps : List Pair) : ScanCache :=
  { ts := now, pairs := ps }

/-- Embedding of `fetch_latest_sol_pairs` (src/bot.py:600-677).

The HTTP call is modelled by `resp`: `none` is any failure
(non-200 status, `success == false`, parse error, exception) and
`some items` a successful payload.  The function first consults the
cache, then requires the API key, builds pairs from the first 50 raw
items, and on a non-empty build caches and returns the truncated list;
every failure path returns `[]` with the cache untouched. -/
def fetch_latest_sol_pairs (c : ScanCache) (now : ℚ) (limit : Nat)
    (hasKey : Bool) (resp : Option (List MarketItem)) :
    List Pair × ScanCache :=
  match cache_get c now limit with
  | some ps => (ps, c)
  | none =>
    if !hasKey then ([], c)
    else
      let pairs := match resp with
        | some items => (items.take 50).map build_pair
        | none => []
      if pairs.isEmpty then ([], c)
      else (pairs.take limit, cache_put now pairs)

/-- A raw market record sharing the mint "AAA" with `itemDupB`. -/
def itemDupA : MarketItem :=
  { address := some "AAA", symbol := some "ONE", createdAt := some 1 }

/-- A second raw market record with the same mint "AAA". -/
def itemDupB : MarketItem :=
  { address := some "AAA", symbol := some "TWO", createdAt := some 2 }

/-- C2 counterexample: a successful discovery from two raw records with
the same `baseToken.address` returns both of them — no deduplication by
mint happens anywhere in `fetch_latest_sol_pairs`. -/
theorem discovery_dedup_counterexample :
    (fetch_latest_sol_pairs ⟨0, []⟩ 100 8 true (some [itemDupA, itemDupB])).1.length = 2
    ∧ ¬ (fetch_latest_sol_pairs ⟨0, []⟩ 100 8 true
          (some [itemDupA, itemDupB])).1.Pairwise
        (fun a b => a.baseToken.address ≠ b.baseToken.address) := by
  have hmiss : cache_get ⟨0, []⟩ 100 8 = none := by simp [cache_get]
  unfold fetch_latest_sol_pairs
  rw [hmiss]
  decide

/-- C2 amended: on a cache miss, `fetch_latest_sol_pairs` performs no
deduplication: the mint sequence of the result is exactly the mint
sequence of the first 50 raw items, in provider order, truncated to
`limit` — duplicate mints survive. -/
theorem discovery_mint_sequence (c : ScanCache) (now : ℚ) (limit : Nat)
    (items : List MarketItem) (hmiss : cache_get c now limit = none) :
    ((fetch_latest_sol_pairs c now limit true (some items)).1).map
        (fun p => p.baseToken.address)
      = ((((items.take 50).map build_pair).take limit)).map
        (fun p => p.baseToken.address) := by
  by_cases hp : ((items.take 50).map build_pair).isEmpty
  · have h0 : (items.take 50).map build_pair = [] := by simpa using hp
    unfold fetch_latest_sol_pairs
    rw [hmiss]
    simp [h0]
  · have h1 : items ≠ [] := by
      intro h
      rw [h] at hp
      simp at hp
    unfold fetch_latest_sol_pairs
    rw [hmiss]
    simp [hp, h1]

/-- Witness for C2 amended at a concrete input. -/
theorem discovery_mint_sequence_witness :
    cache_get ⟨0, []⟩ 100 8 = none
    ∧ ((fetch_latest_sol_pairs ⟨0, []⟩ 100 8 true (some [itemDupA])).1).map
          (fun p => p.baseToken.address)
        = (((([itemDupA].take 50).map build_pair).take 8)).map
          (fun p => p.baseToken.address) :=
  ⟨by simp [cache_get],
   discovery_mint_sequence ⟨0, []⟩ 100 8 [itemDupA] (by simp [cache_get])⟩

/-- `createdAt`-descending order on adjacent pairs, missing timestamps
last (the order §4.2 of the spec prescribes). -/
def createdDescOK (a b : Pair) : Bool :=
  match a.pairCreatedAt, b.pairCreatedAt with
  | some x, some y => y ≤ x
  | some _, none => true
  | none, none => true
  | none, some _ => false

/-- Whether a list is sorted by `createdAt` descending, nulls last. -/
def sortedByCreatedDesc : List Pair → Bool
  | [] => true
  | [_] => true
  | a :: b :: rest => createdDescOK a b && sortedByCreatedDesc (b :: rest)

/-- A raw market record created at epoch 5. -/
def itemOld : MarketItem :=
  { address := some "CCC", symbol := some "OLD", createdAt := some 5 }

/-- A raw market record created at epoch 9, listed after `itemOld`. -/
def itemNew : MarketItem :=
  { address := some "DDD", symbol := some "NEW", createdAt := some 9 }

/-- C3 counterexample: a successful unfiltered discovery returns the
provider's order unchanged — here ascending `createdAt` (5 then 9) —
so the result is not sorted by `createdAt` descending. -/
theorem discovery_sorted_counterexample :
    (fetch_latest_sol_pairs ⟨0, []⟩ 100 8 true (some [itemOld, itemNew])).1.length = 2
    ∧ sortedByCreatedDesc
        (fetch_latest_sol_pairs ⟨0, []⟩ 100 8 true (some [itemOld, itemNew])).1
      = false := by
  have hmiss : cache_get ⟨0, []⟩ 100 8 = none := by simp [cache_get]
  unfold fetch_latest_sol_pairs
  rw [hmiss]
  decide

/-- C3 amended: on a cache miss `fetch_latest_sol_pairs` does not sort:
the result is the first 50 raw items mapped in provider order and
truncated to `limit` (sorting by `pairCreatedAt` happens only in
`apply_filters_to_pairs`, which the scan flow invokes only when the
user has filters set). -/
theorem discovery_preserves_provider_order (c : ScanCache) (now : ℚ)
    (limit : Nat) (items : List MarketItem)
    (hmiss : cache_get c now limit = none) :
    (fetch_latest_sol_pairs c now limit true (some items)).1
      = ((items.take 50).map build_pair).take limit := by
  by_cases hp : ((items.take 50).map build_pair).isEmpty
  · have h0 : (items.take 50).map build_pair = [] := by simpa using hp
    unfold fetch_latest_sol_pairs
    rw [hmiss]
    simp [h0]
  · have h1 : items ≠ [] := by
      intro h
      rw [h] at hp
      simp at hp
    unfold fetch_latest_sol_pairs
    rw [hmiss]
    simp [hp, h1]

/-- Witness for C3 amended at a concrete input. -/
theorem discovery_preserves_provider_order_witness :
    cache_get ⟨0, []⟩ 50 8 = none
    ∧ (fetch_latest_sol_pairs ⟨0, []⟩ 50 8 true (some [itemOld, itemNew])).1
      = (([itemOld, itemNew].take 50).map build_pair).take 8 :=
  ⟨by simp [cache_get],
   discovery_preserves_provider_order ⟨0, []⟩ 50 8 [itemOld, itemNew]
     (by simp [cache_get])⟩

/-- C6: after `cache_put` of a non-empty list X at time t0, a get at
any t1 with t1 - t0 < 15 returns X truncated to the requested limit,
and `fetch_latest_sol_pairs` then short-circuits to that cached value
(no refetch, cache unchanged) whatever the provider would answer; once
the TTL has elapsed (t1 - t0 ≥ 15) the get returns none. -/
theorem cache_roundtrip (ps : List Pair) (t0 t1 : ℚ) (limit : Nat)
    (hne : ps ≠ []) :
    (t1 - t0 < SCAN_CACHE_TTL →
      cache_get (cache_put t0 ps) t1 limit = some (ps.take limit)
      ∧ ∀ (hasKey : Bool) (resp : Option (List MarketItem)),
          fetch_latest_sol_pairs (cache_put t0 ps) t1 limit hasKey resp
            = (ps.take limit, cache_put t0 ps))
    ∧ (SCAN_CACHE_TTL ≤ t1 - t0 →
        cache_get (cache_put t0 ps) t1 limit = none) := by
  constructor
  · intro h
    have h15 : t1 - t0 < (15 : ℚ) := h
    have hg : cache_get (cache_put t0 ps) t1 limit = some (ps.take limit) := by
      have hc : (cache_put t0 ps).ts + SCAN_CACHE_TTL > t1
          ∧ (cache_put t0 ps).pairs ≠ [] := by
        constructor
        · show t0 + (15 : ℚ) > t1
          linarith
        · exact hne
      rw [cache_get, if_pos hc]
      rfl
    refine ⟨hg, fun hasKey resp => ?_⟩
    unfold fetch_latest_sol_pairs
    rw [hg]
  · intro h
    have h15 : (15 : ℚ) ≤ t1 - t0 := h
    rw [cache_get, if_neg]
    rintro ⟨hgt, -⟩
    have hgt' : t0 + (15 : ℚ) > t1 := hgt
    linarith

/-- Witness for C6 at concrete inputs: a one-element cache read back
10 seconds after the put, and expired 20 seconds after the put. -/
theorem cache_roundtrip_witness :
    (cache_get (cache_put 0 [default]) 10 8 = some ([default].take 8))
    ∧ (cache_get (cache_put 0 [default]) 20 8 = none) :=
  ⟨((cache_roundtrip [default] 0 10 8 (by simp)).1 (by norm_num [SCAN_CACHE_TTL])).1,
   (cache_roundtrip [default] 0 20 8 (by simp)).2 (by norm_num [SCAN_CACHE_TTL])⟩

/-! ## Pagination callback (`scan_cb_handler`, src/bot.py:1884-1987) -/

/-- Outcome of the scan pagination callback after the session lookup:
either the "No data" answer for an empty session list, or the card of
index `i` of the session's list. -/
inductive ScanCbOutcome where
  | noData
  | shows (i : Nat) (p : Pair)
deriving DecidableEq, Repr

/-- The index handling of `scan_cb_handler` (src/bot.py:1907-1954) once
the session was found: an empty list answers "No data"; a negative
index is clamped to 0, an index past the end to `len - 1`; in all other
cases `pairs[idx]` is displayed. -/
def scan_cb_display (pairs : List Pair) (idx : Int) : ScanCbOutcome :=
  if pairs.isEmpty then .noData
  else if idx < 0 then .shows 0 (pairs.getD 0 default)
  else if idx ≥ pairs.length then
    .shows (pairs.length - 1) (pairs.getD (pairs.length - 1) default)
  else .shows idx.toNat (pairs.getD idx.toNat default)

/-- C7: for a session holding a non-empty list L and any requested
index, the handler never errors: an in-range idx shows L[idx], a
negative idx shows L[0], and an idx past the end shows L[len-1]. -/
theorem scan_cb_clamps (L : List Pair) (idx : Int) (hne : L ≠ []) :
    scan_cb_display L idx ≠ .noData
    ∧ (0 ≤ idx → idx < L.length →
        scan_cb_display L idx = .shows idx.toNat (L.getD idx.toNat default))
    ∧ (idx < 0 → scan_cb_display L idx = .shows 0 (L.getD 0 default))
    ∧ (L.length ≤ idx →
        scan_cb_display L idx
          = .shows (L.length - 1) (L.getD (L.length - 1) default)) := by
  have hE : L.isEmpty = false := by simpa using hne
  refine ⟨?_, ?_, ?_, ?_⟩
  · rw [scan_cb_display, hE]
    split_ifs <;> simp_all
  · intro h0 hlen
    rw [scan_cb_display, hE]
    rw [if_neg (by simp), if_neg (by omega), if_neg (by omega)]
  · intro h0
    rw [scan_cb_display, hE]
    rw [if_neg (by simp), if_pos h0]
  · intro hge
    have h0 : ¬ idx < 0 := by
      have : (0 : Int) ≤ L.length := by positivity
      omega
    rw [scan_cb_display, hE]
    rw [if_neg (by simp), if_neg h0, if_pos hge]

/-- Witness for C7 at a concrete session list and indexes. -/
theorem scan_cb_clamps_witness :
    scan_cb_display [default] 5 = .shows 0 ([default].getD 0 default) :=
  by
    have h := (scan_cb_clamps [default] 5 (by simp)).2.2.2 (by simp)
    simpa using h

/-! ## Throttle store (`get_last_scan_ts` / `set_last_scan_ts` /
`scan_handler`, src/bot.py:488-493, 547-551, 1423-1440) -/

/-- The `user_throttle` table: `get_last_scan_ts` returns the stored
row or 0 when absent, so the table is a total map with default 0. -/
def ThrottleMap : Type := Int → Int

/-- `get_last_scan_ts` (src/bot.py:488-493). -/
def get_last_scan_ts (m : ThrottleMap) (u : Int) : Int := m u

/-- `set_last_scan_ts` (src/bot.py:547-551), an INSERT OR REPLACE. -/
def set_last_scan_ts (m : ThrottleMap) (u : Int) (ts : Int) : ThrottleMap :=
  fun v => if v = u then ts else m v

/-- Result of the throttle gate of `scan_handler`. -/
inductive ThrottleResult where
  | allowed
  | denied (remaining : Int)
deriving DecidableEq, Repr

/-- The throttle gate of `scan_handler` (src/bot.py:1423-1431): if
`now - last < cooldown` answer Denied with the remaining seconds and
leave the store untouched, else store `now` and answer Allowed. -/
def throttle_check (m : ThrottleMap) (u : Int) (cooldown now : Int) :
    ThrottleResult × ThrottleMap :=
  let last := get_last_scan_ts m u
  if now - last < cooldown then
    (.denied (cooldown - (now - last)), m)
  else
    (.allowed, set_last_scan_ts m u now)

/-- C8: a first check at t0 that finds the cooldown elapsed is Allowed
and stores t0; a second check at t1 within c seconds is Denied with
0 < remaining ≤ c and leaves the stored value untouched. -/
theorem throttle_two_checks (m : ThrottleMap) (u : Int) (c t0 t1 : Int)
    (hfree : c ≤ t0 - get_last_scan_ts m u) (h01 : t0 ≤ t1)
    (hwin : t1 - t0 < c) :
    (throttle_check m u c t0).1 = .allowed
    ∧ get_last_scan_ts (throttle_check m u c t0).2 u = t0
    ∧ (throttle_check (throttle_check m u c t0).2 u c t1).1
        = .denied (c - (t1 - t0))
    ∧ 0 < c - (t1 - t0) ∧ c - (t1 - t0) ≤ c
    ∧ (throttle_check (throttle_check m u c t0).2 u c t1).2
        = (throttle_check m u c t0).2 := by
  have hnot : ¬ t0 - get_last_scan_ts m u < c := by omega
  have h1 : throttle_check m u c t0 = (.allowed, set_last_scan_ts m u t0) := by
    rw [throttle_check]
    simp only [if_neg hnot]
  have hstore : get_last_scan_ts (set_last_scan_ts m u t0) u = t0 := by
    rw [get_last_scan_ts, set_last_scan_ts]
    simp
  have h2 : throttle_check (set_last_scan_ts m u t0) u c t1
      = (.denied (c - (t1 - t0)), set_last_scan_ts m u t0) := by
    rw [throttle_check]
    rw [show get_last_scan_ts (set_last_scan_ts m u t0) u = t0 from hstore]
    rw [if_pos (by omega)]
  refine ⟨by rw [h1], by rw [h1]; exact hstore, by rw [h1, h2], by omega,
    by omega, by rw [h1, h2]⟩

/-- Witness for C8: user 7 with a 30-second cooldown, first check at
t=100 (last use 0), second at t=110. -/
theorem throttle_two_checks_witness :
    (throttle_check (fun _ => 0) 7 30 100).1 = .allowed
    ∧ get_last_scan_ts (throttle_check (fun _ => 0) 7 30 100).2 7 = 100
    ∧ (throttle_check (throttle_check (fun _ => 0) 7 30 100).2 7 30 110).1
        = .denied (30 - (110 - 100))
    ∧ (0 : Int) < 30 - (110 - 100) ∧ (30 : Int) - (110 - 100) ≤ 30
    ∧ (throttle_check (throttle_check (fun _ => 0) 7 30 100).2 7 30 110).2
        = (throttle_check (fun _ => 0) 7 30 100).2 :=
  throttle_two_checks (fun _ => 0) 7 30 100 110 (by norm_num [get_last_scan_ts])
    (by norm_num) (by norm_num)

/-- Outcome of the scan flow (`scan_handler`, src/bot.py:1423-1440; the
inline scan of `research_menu_callback_handler`, src/bot.py:2212-2231,
is line-for-line the same logic). -/
inductive ScanOutcome where
  | cooldownMsg (remaining : Int)
  | noPairs
  | ok (pairs : List Pair)
deriving DecidableEq, Repr

/-- The throttle-and-fetch portion of `scan_handler`: the throttle is
checked and, when Allowed, the timestamp is stored *before* the fetch
is attempted; `fetched` is the list the subsequent
`fetch_latest_sol_pairs` call produces (`[]` for both a failed fetch
and an empty payload), and an empty result only changes the reply, not
the stored throttle state. -/
def scan_flow (m : ThrottleMap) (u : Int) (cooldown now : Int)
    (fetched : List Pair) : ScanOutcome × ThrottleMap :=
  match throttle_check m u cooldown now with
  | (.denied r, m1) => (.cooldownMsg r, m1)
  | (.allowed, m1) =>
    if fetched.isEmpty then (.noPairs, m1)
    else (.ok fetched, m1)

/-- C10: an invocation that passes the throttle stores `now` before the
fetch outcome is known, keeps it even when discovery yields zero pairs
(the no-pairs reply), and a retry within the cooldown is denied — the
throttle is never rolled back on unsuccessful discovery. -/
theorem throttle_not_rolled_back (m : ThrottleMap) (u : Int) (c t0 : Int)
    (fetched : List Pair) (hfree : c ≤ t0 - get_last_scan_ts m u) :
    get_last_scan_ts (scan_flow m u c t0 fetched).2 u = t0
    ∧ (scan_flow m u c t0 []).1 = .noPairs
    ∧ ∀ t1 : Int, t0 ≤ t1 → t1 - t0 < c →
        (scan_flow (scan_flow m u c t0 fetched).2 u c t1 []).1
          = .cooldownMsg (c - (t1 - t0)) := by
  have hnot : ¬ t0 - get_last_scan_ts m u < c := by omega
  have h1 : throttle_check m u c t0 = (.allowed, set_last_scan_ts m u t0) := by
    rw [throttle_check]
    simp only [if_neg hnot]
  have hstore : get_last_scan_ts (set_last_scan_ts m u t0) u = t0 := by
    rw [get_last_scan_ts, set_last_scan_ts]
    simp
  have hflow : scan_flow m u c t0 fetched
      = (if fetched.isEmpty then (.noPairs, set_last_scan_ts m u t0)
         else (.ok fetched, set_last_scan_ts m u t0)) := by
    rw [scan_flow, h1]
  have hsnd : (scan_flow m u c t0 fetched).2 = set_last_scan_ts m u t0 := by
    rw [hflow]
    split <;> rfl
  refine ⟨by rw [hsnd]; exact hstore, by rw [scan_flow, h1]; rfl, ?_⟩
  intro t1 ht01 htwin
  rw [hsnd, scan_flow, throttle_check]
  rw [show get_last_scan_ts (set_last_scan_ts m u t0) u = t0 from hstore]
  rw [if_pos (by omega)]

/-- Witness for C10: user 7, cooldown 30, allowed at t=100 with an
empty discovery, denied again at t=110. -/
theorem throttle_not_rolled_back_witness :
    get_last_scan_ts (scan_flow (fun _ => 0) 7 30 100 []).2 7 = 100
    ∧ (scan_flow (fun _ => 0) 7 30 100 []).1 = .noPairs
    ∧ (scan_flow (scan_flow (fun _ => 0) 7 30 100 []).2 7 30 110 []).1
        = .cooldownMsg (30 - (110 - 100)) := by
  have h := throttle_not_rolled_back (fun _ => 0) 7 30 100 []
    (by norm_num [get_last_scan_ts])
  exact ⟨h.1, h.2.1, h.2.2 110 (by norm_num) (by norm_num)⟩

/-! ## Token detail records (`birdeye_overview` / `birdeye_token_security`
payloads) and the risk slice of the card builders -/

/-- The overview record (`birdeye_overview` data, plus the raw keys the
`extract_*` helpers probe), restricted to the keys the embedded
functions read.  Timestamp keys are epoch numbers as in the canonical
payload; numeric keys are nullable metrics. -/
structure Overview where
  symbol : Option String := none
  name : Option String := none
  price : Option ℚ := none
  liquidity : Option ℚ := none
  mc : Option ℚ := none
  marketCap : Option ℚ := none
  fdv : Option ℚ := none
  v24hUSD : Option ℚ := none
  v24h : Option ℚ := none
  volume24h : Option ℚ := none
  createdAt : Option Int := none
  firstTradeAt : Option Int := none
  first_trade_at : Option Int := none
  first_trade_unix : Option Int := none
  firstTradeUnixTime : Option Int := none
  pairCreatedAt : Option Int := none
  lp_lock_ratio : Option ℚ := none
  lpLockRatio : Option ℚ := none
  lp_locked : Option ℚ := none
  lpLockedRatio : Option ℚ := none
deriving DecidableEq, Repr

/-- The security record (`birdeye_token_security` data): authority
addresses and the two spellings of the top-10 holder share. -/
structure SecurityInfo where
  mintAuthority : Option String := none
  freezeAuthority : Option String := none
  top10HolderPercent : Option ℚ := none
  top10_holder_percent : Option ℚ := none
deriving DecidableEq, Repr

/-- `from_unix_ms` (src/bot.py:566-574): `not ms` (None or 0) gives
None; a value above 10^10 is taken as milliseconds and divided by
1000; the result is an epoch instant in seconds (the `datetime` is
embedded as rational epoch seconds). -/
def from_unix_ms (ms : Option Int) : Option ℚ :=
  match ms with
  | none => none
  | some v =>
    if v = 0 then none
    else if (v : ℚ) > 10000000000 then some ((v : ℚ) / 1000)
    else some ((v : ℚ))

/-- `extract_created_at` (src/bot.py:854-866): probe the five
timestamp keys in order and return `from_unix_ms` of the first
non-None one (even when that conversion yields None). -/
def extract_created_at (d : Overview) : Option ℚ :=
  match d.createdAt with
  | some v => from_unix_ms (some v)
  | none =>
  match d.firstTradeAt with
  | some v => from_unix_ms (some v)
  | none =>
  match d.first_trade_at with
  | some v => from_unix_ms (some v)
  | none =>
  match d.first_trade_unix with
  | some v => from_unix_ms (some v)
  | none =>
  match d.firstTradeUnixTime with
  | some v => from_unix_ms (some v)
  | none => none

/-- `extract_lp_lock_ratio` (src/bot.py:837-852): first non-None of the
four lp-lock keys, rescaled from a 0-1 ratio to percent. -/
def extract_lp_lock_ratio (d : Overview) : Option ℚ :=
  match d.lp_lock_ratio with
  | some v => some (if 0 ≤ v ∧ v ≤ 1 then v * 100 else v)
  | none =>
  match d.lpLockRatio with
  | some v => some (if 0 ≤ v ∧ v ≤ 1 then v * 100 else v)
  | none =>
  match d.lp_locked with
  | some v => some (if 0 ≤ v ∧ v ≤ 1 then v * 100 else v)
  | none =>
  match d.lpLockedRatio with
  | some v => some (if 0 ≤ v ∧ v ≤ 1 then v * 100 else v)
  | none => none

/-- The creation instant the card builders display
(src/bot.py:1242-1244 and 999-1001): `extract_created_at` of the
overview when present, else `from_unix_ms` of the pair's
`pairCreatedAt`. -/
def display_age_dt (extra : Option Overview) (p : Pair) : Option ℚ :=
  let a := match extra with
    | some o => extract_created_at o
    | none => none
  match a with
  | some d => some d
  | none => from_unix_ms p.pairCreatedAt

/-- The `age_hours` the card builders feed to the scorer
(src/bot.py:1246, 1003): elapsed hours when the creation instant is
known, and 0 when it is unknown. -/
def display_age_hours (now : ℚ) (extra : Option Overview) (p : Pair) : ℚ :=
  match display_age_dt extra p with
  | some d => (now - d) / 3600
  | none => 0

/-- The risk computation of `build_full_token_text`
(src/bot.py:1217-1250; `build_details_text` and `build_summary_text`
compute the same inputs): authority flags from the security record,
lp-lock from the overview, age from `display_age_hours`, then
`calc_risk_score`. -/
def build_full_token_risk (now : ℚ) (p : Pair) (extra : Option Overview)
    (security : Option SecurityInfo) (topk_share : Option ℚ) :
    Int × List Reason :=
  let mint_active := match security with
    | some s => s.mintAuthority.isSome
    | none => false
  let freeze_active := match security with
    | some s => s.freezeAuthority.isSome
    | none => false
  let lp_lock := match extra with
    | some o => extract_lp_lock_ratio o
    | none => none
  calc_risk_score p.liquidityUsd p.volume24h lp_lock
    (display_age_hours now extra p) mint_active freeze_active topk_share

/-- C4 counterexample: a token whose creation time cannot be determined
(overview present but with no parseable timestamp key, pair record with
no `pairCreatedAt`) is scored with `age_hours = 0`, so NEW_TOKEN is in
the reasons and the score is 100 - 20 = 80. -/
theorem unknown_age_counterexample :
    Reason.newToken
      ∈ (build_full_token_risk 1000 default (some {}) none none).2
    ∧ (build_full_token_risk 1000 default (some {}) none none).1 = 80 := by
  have h : build_full_token_risk 1000 default (some {}) none none
      = calc_risk_score none none none 0 false false none := rfl
  rw [h]
  constructor
  · rw [mem_reasons_iff]
    exact Or.inr (Or.inr (Or.inr (Or.inl ⟨rfl, by norm_num⟩)))
  · norm_num [calc_risk_score, known_lt, known_gt]

/-- C4 amended: when the creation time cannot be determined from either
record, the card builders pass `age_hours = 0` to the scorer, so the
NEW_TOKEN penalty IS applied: the risk reasons always contain NEW_TOKEN
(and the pre-clamp score is reduced by 20). -/
theorem unknown_age_penalized (now : ℚ) (p : Pair) (extra : Option Overview)
    (security : Option SecurityInfo) (tk : Option ℚ)
    (hnoage : display_age_dt extra p = none) :
    Reason.newToken ∈ (build_full_token_risk now p extra security tk).2 := by
  have hage : display_age_hours now extra p = 0 := by
    rw [display_age_hours, hnoage]
  simp only [build_full_token_risk]
  rw [hage, mem_reasons_iff]
  exact Or.inr (Or.inr (Or.inr (Or.inl ⟨rfl, by norm_num⟩)))

/-- Witness for C4 amended at a concrete input. -/
theorem unknown_age_penalized_witness :
    display_age_dt (some {}) default = none
    ∧ Reason.newToken
        ∈ (build_full_token_risk 500 default (some {}) none none).2 :=
  ⟨rfl, unknown_age_penalized 500 default (some {}) none none rfl⟩

/-! ## Detail assembly (`token_handler`, src/bot.py:1529-1570) -/

/-- Overview field access through the Python `(extra or {}).get(k)`
pattern: None when the whole record is absent. -/
def oget {α : Type} (e : Option Overview) (f : Overview → Option α) : Option α :=
  match e with
  | some o => f o
  | none => none

/-- Whether `token_handler` includes `birdeye_price` in its
`asyncio.gather` fan-out: it does exactly when BIRDEYE_API_KEY is set
(src/bot.py:1536-1543) — independently of any other result. -/
def token_consults_price_oracle (hasKey : Bool) : Bool := hasKey

/-- The canonical `p` dict `token_handler` assembles
(src/bot.py:1558-1570) from the overview record and the price-oracle
value (`birdeye_price_val`). -/
def assemble_token_p (mint : String) (extra : Option Overview)
    (price_val : Option ℚ) : Pair :=
  { baseToken :=
      { symbol := pyOrStr (oget extra (fun o => o.symbol)) ""
        name := pyOrStr (oget extra (fun o => o.name)) ""
        address := mint }
    priceUsd := pyOrQ price_val (oget extra (fun o => o.price))
    liquidityUsd := oget extra (fun o => o.liquidity)
    fdv := pyOrQ (oget extra (fun o => o.mc))
      (pyOrQ (oget extra (fun o => o.marketCap)) (oget extra (fun o => o.fdv)))
    volume24h := pyOrQ (oget extra (fun o => o.v24hUSD))
      (pyOrQ (oget extra (fun o => o.v24h)) (oget extra (fun o => o.volume24h)))
    pairCreatedAt := pyOrInt (oget extra (fun o => o.createdAt))
      (pyOrInt (oget extra (fun o => o.firstTradeAt))
        (pyOrInt (oget extra (fun o => o.firstTradeUnixTime))
          (oget extra (fun o => o.pairCreatedAt)))) }

/-- An overview record that already carries a price. -/
def ovWithPrice : Overview := { price := some 5 }

/-- C9 counterexample: with the API key set the price oracle is always
in the gather fan-out, even when the overview alone already yields a
non-null `priceUsd` — it is not reserved for the price-still-null
case. -/
theorem price_oracle_counterexample :
    token_consults_price_oracle true = true
    ∧ (assemble_token_p "MINT" (some ovWithPrice) none).priceUsd ≠ none := by
  constructor
  · rfl
  · rw [show (assemble_token_p "MINT" (some ovWithPrice) none).priceUsd
        = some 5 from rfl]
    simp

/-- C9 amended: the price oracle is consulted whenever the API key is
set (concurrently with the other calls, not only on a null price), and
its value contributes only the `priceUsd` field of the assembled
record: every other field is unchanged, and `priceUsd` is the oracle
value when truthy, else the overview price. -/
theorem price_oracle_scope (mint : String) (extra : Option Overview)
    (pv : Option ℚ) :
    token_consults_price_oracle true = true
    ∧ (assemble_token_p mint extra pv).baseToken
        = (assemble_token_p mint extra none).baseToken
    ∧ (assemble_token_p mint extra pv).liquidityUsd
        = (assemble_token_p mint extra none).liquidityUsd
    ∧ (assemble_token_p mint extra pv).fdv
        = (assemble_token_p mint extra none).fdv
    ∧ (assemble_token_p mint extra pv).volume24h
        = (assemble_token_p mint extra none).volume24h
    ∧ (assemble_token_p mint extra pv).pairCreatedAt
        = (assemble_token_p mint extra none).pairCreatedAt
    ∧ (assemble_token_p mint extra pv).priceUsd
        = pyOrQ pv (oget extra (fun o => o.price)) :=
  ⟨rfl, rfl, rfl, rfl, rfl, rfl, rfl⟩

end CrocScanner
